import Mathlib

/-!
Verification development for the Time_Table_Generator repository.

The repository delegates the actual schedule computation to an external
language model; the code around that call (input schemas, the server
action wrapper, the dimension validation in the flow, the form parsing on
the page, and the plain-text rendering of a timetable) is embedded here as
executable Lean definitions.  The external model call is represented as an
explicit oracle parameter `model : GenerateTimetableInput → Option
GenerateTimetableOutput`: `none` stands for a null / failed model
response, `some out` for a response that parsed against the output schema.

The scheduling engine itself (slot planner, constraint registry, greedy
assignment solver) does not exist in the repository; where a claim is
about that engine it is settled against definitions modelled from the
specification, marked `Modelled from the spec:` below.
-/

namespace TimeTable

/-- Structured input of `generateTimetable` (src/ai/flows/generate-timetable.ts,
`GenerateTimetableInputSchema`). -/
structure GenerateTimetableInput where
  workingDays : Int
  classesPerDay : Int
  subjects : List String
  teachersPerSubject : List Int
  otherConstraints : Option String
deriving DecidableEq, Repr

/-- Structured output of `generateTimetable` (`GenerateTimetableOutputSchema`).
A schedule cell is `none` for a null / free slot, `some s` for a string cell. -/
structure GenerateTimetableOutput where
  days : List String
  periods : List String
  schedule : List (List (Option String))
deriving DecidableEq, Repr

/-- Zod validation performed by genkit on the flow and prompt input
(`GenerateTimetableInputSchema`): `workingDays` positive, `classesPerDay`
positive, at least one subject, all teacher counts non-negative. -/
def inputSchemaValid (i : GenerateTimetableInput) : Bool :=
  decide (0 < i.workingDays) && decide (0 < i.classesPerDay) &&
    decide (1 ≤ i.subjects.length) && i.teachersPerSubject.all (fun t => decide (0 ≤ t))

/-- The body of `generateTimetableFlow` (src/ai/flows/generate-timetable.ts,
lines 96-134).  genkit validates the flow input against
`GenerateTimetableInputSchema` before the body runs; the body calls the
prompt (the oracle), rejects a null output, then performs the dimension
checks of lines 110-130 in source order.  The JavaScript
`!output.days || !output.periods || !output.schedule` and
`Array.isArray` checks are vacuous on the schema-typed output and have no
counterpart here. -/
def generateTimetableFlow
    (model : GenerateTimetableInput → Option GenerateTimetableOutput)
    (input : GenerateTimetableInput) : Except String GenerateTimetableOutput :=
  if inputSchemaValid input = false then
    .error "Flow input does not match GenerateTimetableInputSchema."
  else
    match model input with
    | none => .error "AI failed to generate timetable data."
    | some output =>
      if output.schedule.length ≠ output.periods.length then
        .error "AI output error: Schedule rows do not match number of periods."
      else if 0 < output.schedule.length ∧
          output.schedule.any (fun row => decide (row.length ≠ output.days.length)) = true then
        .error "AI output error: At least one schedule row column count does not match number of days."
      else if output.schedule.any (fun row => decide (row.length ≠ output.days.length)) = true then
        .error "AI output error: A schedule row has a column count different from the number of days."
      else
        .ok output

/-- `generateTimetable` (src/ai/flows/generate-timetable.ts, lines 45-51):
rejects a subjects / teacher-counts length mismatch, otherwise runs the flow. -/
def generateTimetable
    (model : GenerateTimetableInput → Option GenerateTimetableOutput)
    (input : GenerateTimetableInput) : Except String GenerateTimetableOutput :=
  if input.subjects.length ≠ input.teachersPerSubject.length then
    .error "Mismatch between the number of subjects and teacher counts."
  else
    generateTimetableFlow model input

/-- A concrete valid input used in witnesses. -/
def exInput : GenerateTimetableInput :=
  { workingDays := 2
    classesPerDay := 1
    subjects := ["Math"]
    teachersPerSubject := [1]
    otherConstraints := some "" }

/-- A concrete model output of consistent dimensions for `exInput`. -/
def exOutput : GenerateTimetableOutput :=
  { days := ["Monday", "Tuesday"]
    periods := ["Period 1"]
    schedule := [[some "Math - Teacher 1", none]] }

/-- An oracle that returns no output (null model response). -/
def oracleNone (_ : GenerateTimetableInput) : Option GenerateTimetableOutput := none

/-- An oracle that always answers with `exOutput`. -/
def oracleEx (_ : GenerateTimetableInput) : Option GenerateTimetableOutput := some exOutput

/-- A model output whose `days` has length 1, although `exInput.workingDays = 2`;
its grid dimensions are internally consistent. -/
def shortDaysOutput : GenerateTimetableOutput :=
  { days := ["Monday"]
    periods := ["Period 1"]
    schedule := [[some "Math - Teacher 1"]] }

/-- An oracle that always answers with `shortDaysOutput`. -/
def oracleShortDays (_ : GenerateTimetableInput) : Option GenerateTimetableOutput :=
  some shortDaysOutput

/-- A Boolean that is false is not true. -/
theorem bool_false_not_true {b : Bool} (h : b = false) : ¬ b = true := by
  simp [h]

/-- The flow succeeds exactly when the input passes the schema, the model
answers, and the answer passes every dimension check; the success value is
the model answer itself. -/
theorem generateTimetableFlow_ok_iff
    (model : GenerateTimetableInput → Option GenerateTimetableOutput)
    (input : GenerateTimetableInput) (out : GenerateTimetableOutput) :
    generateTimetableFlow model input = .ok out ↔
      inputSchemaValid input = true ∧ model input = some out ∧
        out.schedule.length = out.periods.length ∧
        ∀ row ∈ out.schedule, row.length = out.days.length := by
  constructor
  · intro h
    unfold generateTimetableFlow at h
    by_cases hs : inputSchemaValid input = false
    · rw [if_pos hs] at h
      exact absurd h (by simp)
    · rw [if_neg hs] at h
      have hs' : inputSchemaValid input = true := by
        cases hval : inputSchemaValid input
        · exact absurd hval hs
        · rfl
      cases hm : model input with
      | none => rw [hm] at h; exact absurd h (by simp)
      | some output =>
        rw [hm] at h
        dsimp only at h
        by_cases hlen : output.schedule.length ≠ output.periods.length
        · rw [if_pos hlen] at h
          exact absurd h (by simp)
        · rw [if_neg hlen] at h
          cases hany : output.schedule.any (fun row => decide (row.length ≠ output.days.length)) with
          | true =>
            have hpos : 0 < output.schedule.length := by
              rcases List.any_eq_true.mp hany with ⟨row, hrow, _⟩
              exact List.length_pos_of_mem hrow
            rw [if_pos ⟨hpos, hany⟩] at h
            exact absurd h (by simp)
          | false =>
            rw [if_neg (fun hc => bool_false_not_true hany hc.2)] at h
            rw [if_neg (bool_false_not_true hany)] at h
            have hout : output = out := by simpa using h
            subst hout
            refine ⟨hs', rfl, by omega, ?_⟩
            intro row hrow
            by_contra hne
            exact bool_false_not_true hany
              (List.any_eq_true.mpr ⟨row, hrow, decide_eq_true hne⟩)
  · rintro ⟨hs, hm, h1, h2⟩
    unfold generateTimetableFlow
    have hany : (out.schedule.any (fun row => decide (row.length ≠ out.days.length))) = false := by
      apply List.any_eq_false.mpr
      intro row hrow
      simpa using h2 row hrow
    rw [if_neg (by simp [hs]), hm]
    dsimp only
    rw [if_neg (by omega)]
    rw [if_neg (fun hc => bool_false_not_true hany hc.2)]
    rw [if_neg (bool_false_not_true hany)]

/-- `generateTimetable` succeeds exactly when the lengths match and the flow
succeeds. -/
theorem generateTimetable_ok_iff
    (model : GenerateTimetableInput → Option GenerateTimetableOutput)
    (input : GenerateTimetableInput) (out : GenerateTimetableOutput) :
    generateTimetable model input = .ok out ↔
      input.subjects.length = input.teachersPerSubject.length ∧
        generateTimetableFlow model input = .ok out := by
  unfold generateTimetable
  by_cases hmis : input.subjects.length ≠ input.teachersPerSubject.length
  · rw [if_pos hmis]
    constructor
    · intro h; exact absurd h (by simp)
    · rintro ⟨heq, _⟩; exact absurd heq hmis
  · rw [if_neg hmis]
    constructor
    · intro h; exact ⟨by omega, h⟩
    · rintro ⟨_, h⟩; exact h

/-!
Spec-modelled scheduling engine.

The repository contains no scheduling algorithm: the grid is produced by
the external language model (`generateTimetablePrompt` merely instructs
it).  The definitions in the `Engine` namespace are modelled from the
specification (sections 3, 4.1-4.3, 6, 7) and are used to settle the
claims about break placement and zero-teacher capacity.
-/

namespace Engine

/-- Modelled from the spec: the structured `Constraint` variants (spec §3);
missing from the code, where constraints are a free-text string handed to
the model. -/
inductive Constraint where
  | fixedBreak (periodIndex : Nat) (label : String)
  | forbiddenSlot (subject : Nat) (day : Nat) (period : Nat)
  | preferredSlot (teacher : Nat) (day : Nat) (period : Nat)
  | noDoubleBooking
deriving DecidableEq, Repr

/-- Modelled from the spec: the structured engine input record (spec §6). -/
structure EngineInput where
  workingDays : Nat
  classesPerDay : Nat
  subjects : List String
  teachersPerSubject : List Nat
  constraints : List Constraint
deriving DecidableEq, Repr

/-- Modelled from the spec: one cell of the assignment grid (spec §3):
empty, a pre-placed break, or a class with a subject index and a teacher
index inside that subject pool. -/
inductive Assignment where
  | empty
  | breakEvent (label : String)
  | classAssignment (subject : Nat) (teacherIndex : Nat)
deriving DecidableEq, Repr

/-- Modelled from the spec: a period row is a teaching slot or a break
(spec §3). -/
inductive PeriodKind where
  | teaching
  | brk (label : String)
deriving DecidableEq, Repr

/-- Modelled from the spec: the output schedule with non-fatal warnings
(spec §6, §7). -/
structure Schedule where
  days : List String
  periods : List String
  grid : List (List Assignment)
  warnings : List String
deriving DecidableEq, Repr

/-- Modelled from the spec: fatal engine errors (spec §7). -/
inductive EngineError where
  | configError (msg : String)
  | constraintConflict (msg : String)
deriving DecidableEq, Repr

/-- Canonical weekday sequence starting Monday (spec §4.1). -/
def weekdayNames : List String :=
  ["Monday", "Tuesday", "Wednesday", "Thursday", "Friday", "Saturday", "Sunday"]

/-- Day names: the canonical sequence truncated to `workingDays` (spec §4.1). -/
def dayNames (workingDays : Nat) : List String :=
  weekdayNames.take workingDays

/-- The `FixedBreak` constraints as (period index, label) pairs. -/
def breakConstraints (cs : List Constraint) : List (Nat × String) :=
  cs.filterMap fun c => match c with
    | .fixedBreak i l => some (i, l)
    | _ => none

/-- Two `FixedBreak` constraints claim the same period index with
different labels (rejected by the constraint registry, spec §4.2). -/
def conflictingBreaks (bs : List (Nat × String)) : Bool :=
  bs.any fun b => bs.any fun c => decide (b.1 = c.1) && decide (b.2 ≠ c.2)

/-- When no break constraint is supplied, insert the default `Lunch` break
after the period nearest the midpoint (spec §4.1). -/
def effectiveBreaks (classesPerDay : Nat) (bs : List (Nat × String)) : List (Nat × String) :=
  if bs.isEmpty then [((classesPerDay + 1) / 2, "Lunch")] else bs

/-- The break label claiming row `j`, if any. -/
def breakAt (bs : List (Nat × String)) (j : Nat) : Option String :=
  (bs.find? fun b => decide (b.1 = j)).map Prod.snd

/-- Number of distinct break row positions. -/
def breakIndexCount (bs : List (Nat × String)) : Nat :=
  ((bs.map Prod.fst).dedup).length

/-- The ordered period rows: `classesPerDay` teaching rows plus one row per
distinct break position, each break row at the position its constraint
names (spec §4.1). -/
def periodKinds (classesPerDay : Nat) (bs : List (Nat × String)) : List PeriodKind :=
  (List.range (classesPerDay + breakIndexCount bs)).map fun j =>
    match breakAt bs j with
    | some l => PeriodKind.brk l
    | none => PeriodKind.teaching

/-- Sequential teaching labels with break labels interleaved (spec §4.1:
"Period 1, Period 2, Period 3, Lunch, Period 4, ..."). -/
def periodLabelsAux : List PeriodKind → Nat → List String
  | [], _ => []
  | PeriodKind.teaching :: rest, k => ("Period " ++ toString k) :: periodLabelsAux rest (k + 1)
  | PeriodKind.brk l :: rest, k => l :: periodLabelsAux rest k

/-- The period labels of a row-kind sequence. -/
def periodLabels (kinds : List PeriodKind) : List String :=
  periodLabelsAux kinds 1

/-- Target weekly occurrence counts: `workingDays * classesPerDay / n`
rounded down, remainder distributed round-robin (spec §3). -/
def targets (workingDays classesPerDay n : Nat) : List Nat :=
  (List.range n).map fun i =>
    workingDays * classesPerDay / n +
      (if i < workingDays * classesPerDay % n then 1 else 0)

/-- Deficit between target and current occurrence count (spec §4.3 ranking). -/
def deficit (tg tot : List Nat) (i : Nat) : Int :=
  (tg.getD i 0 : Int) - (tot.getD i 0 : Int)

/-- Increment position `i` of a count list. -/
def bump (l : List Nat) (i : Nat) : List Nat :=
  l.set i (l.getD i 0 + 1)

/-- A `ForbiddenSlot` constraint rules out (subject, day, period). -/
def forbidden (cs : List Constraint) (subject day period : Nat) : Bool :=
  cs.any fun c => match c with
    | .forbiddenSlot s d p => decide (s = subject ∧ d = day ∧ p = period)
    | _ => false

/-- Candidate feasibility (spec §4.3): the subject has teachers at all, has
remaining teacher capacity for this day, and the slot is not forbidden. -/
def feasible (teachers : List Nat) (cs : List Constraint) (dayUseRow : List Nat)
    (period day i : Nat) : Bool :=
  decide (0 < teachers.getD i 0) && decide (dayUseRow.getD i 0 < teachers.getD i 0) &&
    !(forbidden cs i day period)

/-- Pick the feasible candidate of maximal score, earlier input order
winning ties (spec §4.3 ranked-candidate rule). -/
def pickFrom (isF : Nat → Bool) (score : Nat → Int) : List Nat → Option Nat
  | [] => none
  | i :: rest =>
    if isF i then
      match pickFrom isF score rest with
      | none => some i
      | some j => if score i < score j then some j else some i
    else pickFrom isF score rest

/-- Fill the day columns of one teaching row in day order, threading the
per-subject totals and the per-day per-subject teacher-use counts
(spec §4.3: greedy, `Empty` when no candidate is feasible). -/
def fillSlots (inp : EngineInput) (tg : List Nat) (period : Nat) :
    List Nat → List Nat → List (List Nat) → List Assignment × List Nat × List (List Nat)
  | [], totals, dayUse => ([], totals, dayUse)
  | d :: rest, totals, dayUse =>
    match pickFrom
        (fun i => feasible inp.teachersPerSubject inp.constraints (dayUse.getD d []) period d i)
        (deficit tg totals) (List.range inp.subjects.length) with
    | none =>
      let r := fillSlots inp tg period rest totals dayUse
      (Assignment.empty :: r.1, r.2)
    | some i =>
      let r := fillSlots inp tg period rest (bump totals i)
        (dayUse.set d (bump (dayUse.getD d []) i))
      (Assignment.classAssignment i ((dayUse.getD d []).getD i 0) :: r.1, r.2)

/-- Fill the grid row by row in row-major order: break rows are pre-placed
with their label in every column, teaching rows are solved greedily
(spec §3, §4.3). -/
def fillGrid (inp : EngineInput) (tg : List Nat) :
    List PeriodKind → Nat → List Nat → List (List Nat) →
      List (List Assignment) × List Nat × List (List Nat)
  | [], _, totals, dayUse => ([], totals, dayUse)
  | PeriodKind.brk label :: rest, r, totals, dayUse =>
    let g := fillGrid inp tg rest (r + 1) totals dayUse
    (List.replicate inp.workingDays (Assignment.breakEvent label) :: g.1, g.2)
  | PeriodKind.teaching :: rest, r, totals, dayUse =>
    let s := fillSlots inp tg r (List.range inp.workingDays) totals dayUse
    let g := fillGrid inp tg rest (r + 1) s.2.1 s.2.2
    (s.1 :: g.1, g.2)

/-- Configuration validity (spec §6): `workingDays` 1..7, `classesPerDay`
1..12, at least one subject, matching teacher-count length. -/
def configValid (inp : EngineInput) : Bool :=
  decide (1 ≤ inp.workingDays) && decide (inp.workingDays ≤ 7) &&
    decide (1 ≤ inp.classesPerDay) && decide (inp.classesPerDay ≤ 12) &&
    decide (1 ≤ inp.subjects.length) &&
    decide (inp.subjects.length = inp.teachersPerSubject.length)

/-- The break list the engine plans with. -/
def engineBreaks (inp : EngineInput) : List (Nat × String) :=
  effectiveBreaks inp.classesPerDay (breakConstraints inp.constraints)

/-- The period row kinds the engine plans with. -/
def engineKinds (inp : EngineInput) : List PeriodKind :=
  periodKinds inp.classesPerDay (engineBreaks inp)

/-- The solved grid. -/
def engineGrid (inp : EngineInput) : List (List Assignment) :=
  (fillGrid inp (targets inp.workingDays inp.classesPerDay inp.subjects.length)
    (engineKinds inp) 0 (List.replicate inp.subjects.length 0)
    (List.replicate inp.workingDays (List.replicate inp.subjects.length 0))).1

/-- Non-fatal warnings: one per subject with zero teachers (spec §7). -/
def engineWarnings (inp : EngineInput) : List String :=
  (List.range inp.subjects.length).filterMap fun i =>
    if inp.teachersPerSubject.getD i 0 = 0 then
      some ("No teachers available for subject " ++ inp.subjects.getD i "")
    else none

/-- Modelled from the spec: the whole engine run (spec §2 data flow):
validate the configuration, reject conflicting break constraints, plan
days and periods, pre-place breaks, solve teaching slots greedily, attach
warnings. -/
def runEngine (inp : EngineInput) : Except EngineError Schedule :=
  if configValid inp = false then
    .error (.configError "workingDays, classesPerDay or subject list out of range")
  else if conflictingBreaks (breakConstraints inp.constraints) = true then
    .error (.constraintConflict "two FixedBreak constraints claim the same period index with different labels")
  else
    .ok { days := dayNames inp.workingDays
          periods := periodLabels (engineKinds inp)
          grid := engineGrid inp
          warnings := engineWarnings inp }

/-- Rendering of a grid cell to the output cell format (spec §6):
`none` for a free slot, the break label, or "Subject - Teacher k". -/
def renderAssignment (subjects : List String) : Assignment → Option String
  | .empty => none
  | .breakEvent label => some label
  | .classAssignment i t => some (subjects.getD i "" ++ " - Teacher " ++ toString (t + 1))

/-- `getD` through a map over a range. -/
theorem map_range_getD {α : Type} (f : Nat → α) (n j : Nat) (d : α) (h : j < n) :
    ((List.range n).map f).getD j d = f j := by
  rw [List.getD_eq_getElem?_getD, List.getElem?_map, List.getElem?_range h]
  rfl

/-- `getD` inside a replicate. -/
theorem replicate_getD {α : Type} (n : Nat) (a d : α) (j : Nat) (h : j < n) :
    (List.replicate n a).getD j d = a := by
  rw [List.getD_eq_getElem?_getD, List.getElem?_replicate]
  simp [h]

/-- Without conflicting breaks, two break entries at the same row position
carry the same label. -/
theorem no_conflict_pairs (bs : List (Nat × String))
    (h : conflictingBreaks bs = false) :
    ∀ b ∈ bs, ∀ c ∈ bs, b.1 = c.1 → b.2 = c.2 := by
  intro b hb c hc h1
  by_contra h2
  have hc' : conflictingBreaks bs = true := by
    unfold conflictingBreaks
    rw [List.any_eq_true]
    refine ⟨b, hb, ?_⟩
    rw [List.any_eq_true]
    exact ⟨c, hc, by simp [h1, h2]⟩
  rw [hc'] at h
  cases h

/-- A break entry present in a conflict-free break list is the one
`breakAt` finds for its position. -/
theorem breakAt_of_mem (bs : List (Nat × String)) (j : Nat) (label : String)
    (hmem : (j, label) ∈ bs) (hnc : conflictingBreaks bs = false) :
    breakAt bs j = some label := by
  unfold breakAt
  cases hfind : bs.find? (fun b => decide (b.1 = j)) with
  | none =>
    have := List.find?_eq_none.mp hfind (j, label) hmem
    simp at this
  | some b =>
    have hbmem := List.mem_of_find?_eq_some hfind
    have hbj : b.1 = j := by simpa using List.find?_some hfind
    have hlab : b.2 = label :=
      no_conflict_pairs bs hnc b hbmem (j, label) hmem (by simpa using hbj)
    simp [hlab]

/-- Labelling preserves the number of period rows. -/
theorem periodLabelsAux_length : ∀ (kinds : List PeriodKind) (k : Nat),
    (periodLabelsAux kinds k).length = kinds.length := by
  intro kinds
  induction kinds with
  | nil => intro k; rfl
  | cons hd rest ih =>
    intro k
    cases hd with
    | teaching => simp [periodLabelsAux, ih]
    | brk l => simp [periodLabelsAux, ih]

/-- A break row keeps its label at its position in the label sequence. -/
theorem periodLabelsAux_brk : ∀ (kinds : List PeriodKind) (k j : Nat) (label : String),
    kinds.getD j PeriodKind.teaching = PeriodKind.brk label →
    (periodLabelsAux kinds k).getD j "" = label := by
  intro kinds
  induction kinds with
  | nil =>
    intro k j label h
    rw [List.getD_nil] at h
    exact absurd h (by simp)
  | cons hd rest ih =>
    intro k j label h
    cases hd with
    | teaching =>
      cases j with
      | zero =>
        rw [List.getD_cons_zero] at h
        exact absurd h (by simp)
      | succ j =>
        rw [List.getD_cons_succ] at h
        simp only [periodLabelsAux, List.getD_cons_succ]
        exact ih (k + 1) j label h
    | brk l =>
      cases j with
      | zero =>
        rw [List.getD_cons_zero] at h
        injection h with h'
      | succ j =>
        rw [List.getD_cons_succ] at h
        simp only [periodLabelsAux, List.getD_cons_succ]
        exact ih k j label h

/-- A picked candidate is feasible. -/
theorem pickFrom_feasible (isF : Nat → Bool) (score : Nat → Int) :
    ∀ (l : List Nat) (j : Nat), pickFrom isF score l = some j → isF j = true := by
  intro l
  induction l with
  | nil => intro j h; simp [pickFrom] at h
  | cons i rest ih =>
    intro j h
    rw [pickFrom] at h
    by_cases hi : isF i = true
    · rw [if_pos hi] at h
      cases hrec : pickFrom isF score rest with
      | none =>
        rw [hrec] at h
        dsimp only at h
        cases h
        exact hi
      | some j0 =>
        rw [hrec] at h
        dsimp only at h
        by_cases hs : score i < score j0
        · rw [if_pos hs] at h
          cases h
          exact ih _ hrec
        · rw [if_neg hs] at h
          cases h
          exact hi
    · rw [if_neg hi] at h
      exact ih j h

/-- Feasibility requires a non-empty teacher pool. -/
theorem feasible_pos {teachers : List Nat} {cs : List Constraint}
    {dayUseRow : List Nat} {period day i : Nat}
    (h : feasible teachers cs dayUseRow period day i = true) :
    0 < teachers.getD i 0 := by
  unfold feasible at h
  simp only [Bool.and_eq_true, decide_eq_true_eq] at h
  exact h.1.1

/-- Every class assignment placed by `fillSlots` belongs to a subject with
at least one teacher. -/
theorem fillSlots_cells (inp : EngineInput) (tg : List Nat) (period : Nat) :
    ∀ (ds totals : List Nat) (dayUse : List (List Nat)) (cell : Assignment),
      cell ∈ (fillSlots inp tg period ds totals dayUse).1 →
      ∀ i t, cell = Assignment.classAssignment i t →
        0 < inp.teachersPerSubject.getD i 0 := by
  intro ds
  induction ds with
  | nil =>
    intro totals dayUse cell hcell
    simp [fillSlots] at hcell
  | cons d rest ih =>
    intro totals dayUse cell hcell i t heq
    rw [fillSlots] at hcell
    cases hpick : pickFrom
        (fun i => feasible inp.teachersPerSubject inp.constraints (dayUse.getD d []) period d i)
        (deficit tg totals) (List.range inp.subjects.length) with
    | none =>
      rw [hpick] at hcell
      dsimp only at hcell
      rcases List.mem_cons.mp hcell with rfl | hcell'
      · exact absurd heq (by simp)
      · exact ih totals dayUse cell hcell' i t heq
    | some i0 =>
      rw [hpick] at hcell
      dsimp only at hcell
      rcases List.mem_cons.mp hcell with rfl | hcell'
      · injection heq with h1 h2
        rw [← h1]
        exact feasible_pos (pickFrom_feasible _ _ _ i0 hpick)
      · exact ih (bump totals i0) (dayUse.set d (bump (dayUse.getD d []) i0)) cell hcell' i t heq

/-- Every class assignment in the solved grid belongs to a subject with at
least one teacher. -/
theorem fillGrid_cells (inp : EngineInput) (tg : List Nat) :
    ∀ (kinds : List PeriodKind) (r : Nat) (totals : List Nat) (dayUse : List (List Nat))
      (row : List Assignment),
      row ∈ (fillGrid inp tg kinds r totals dayUse).1 →
      ∀ cell ∈ row, ∀ i t, cell = Assignment.classAssignment i t →
        0 < inp.teachersPerSubject.getD i 0 := by
  intro kinds
  induction kinds with
  | nil =>
    intro r totals dayUse row hrow
    simp [fillGrid] at hrow
  | cons hd rest ih =>
    intro r totals dayUse row hrow cell hcell i t heq
    cases hd with
    | brk label =>
      rw [fillGrid] at hrow
      dsimp only at hrow
      rcases List.mem_cons.mp hrow with rfl | hrow'
      · have hbe := List.eq_of_mem_replicate hcell
        rw [hbe] at heq
        exact absurd heq (by simp)
      · exact ih (r + 1) totals dayUse row hrow' cell hcell i t heq
    | teaching =>
      rw [fillGrid] at hrow
      dsimp only at hrow
      rcases List.mem_cons.mp hrow with rfl | hrow'
      · exact fillSlots_cells inp tg r (List.range inp.workingDays) totals dayUse cell hcell i t heq
      · exact ih (r + 1) _ _ row hrow' cell hcell i t heq

/-- A break row of the kind sequence becomes a full row of its label in the
solved grid. -/
theorem fillGrid_brk_getD (inp : EngineInput) (tg : List Nat) :
    ∀ (kinds : List PeriodKind) (r : Nat) (totals : List Nat) (dayUse : List (List Nat))
      (j : Nat) (label : String),
      kinds.getD j PeriodKind.teaching = PeriodKind.brk label →
      ((fillGrid inp tg kinds r totals dayUse).1.getD j []) =
        List.replicate inp.workingDays (Assignment.breakEvent label) := by
  intro kinds
  induction kinds with
  | nil =>
    intro r totals dayUse j label h
    rw [List.getD_nil] at h
    exact absurd h (by simp)
  | cons hd rest ih =>
    intro r totals dayUse j label h
    cases hd with
    | brk l =>
      cases j with
      | zero =>
        rw [List.getD_cons_zero] at h
        injection h with h'
        rw [fillGrid]
        dsimp only
        rw [List.getD_cons_zero, h']
      | succ j =>
        rw [List.getD_cons_succ] at h
        rw [fillGrid]
        dsimp only
        rw [List.getD_cons_succ]
        exact ih (r + 1) totals dayUse j label h
    | teaching =>
      cases j with
      | zero =>
        rw [List.getD_cons_zero] at h
        exact absurd h (by simp)
      | succ j =>
        rw [List.getD_cons_succ] at h
        rw [fillGrid]
        dsimp only
        rw [List.getD_cons_succ]
        exact ih (r + 1) _ _ j label h

/-- The engine succeeds exactly when the configuration is valid and the
break constraints are conflict-free; the success value is the planned and
solved schedule. -/
theorem runEngine_ok_iff (inp : EngineInput) (sched : Schedule) :
    runEngine inp = .ok sched ↔
      configValid inp = true ∧
        conflictingBreaks (breakConstraints inp.constraints) = false ∧
        sched = { days := dayNames inp.workingDays
                  periods := periodLabels (engineKinds inp)
                  grid := engineGrid inp
                  warnings := engineWarnings inp } := by
  unfold runEngine
  by_cases h1 : configValid inp = false
  · rw [if_pos h1]
    constructor
    · intro h; exact absurd h (by simp)
    · rintro ⟨hc, -, -⟩
      rw [h1] at hc
      cases hc
  · rw [if_neg h1]
    have h1' : configValid inp = true := by
      cases hv : configValid inp
      · exact absurd hv h1
      · rfl
    by_cases h2 : conflictingBreaks (breakConstraints inp.constraints) = true
    · rw [if_pos h2]
      constructor
      · intro h; exact absurd h (by simp)
      · rintro ⟨-, hc, -⟩
        rw [h2] at hc
        cases hc
    · rw [if_neg h2]
      have h2' : conflictingBreaks (breakConstraints inp.constraints) = false := by
        cases hv : conflictingBreaks (breakConstraints inp.constraints)
        · rfl
        · exact absurd hv h2
      constructor
      · intro h
        exact ⟨h1', h2', (Except.ok.inj h).symm⟩
      · rintro ⟨-, -, rfl⟩
        rfl

/-- When some break constraint exists, the engine plans with exactly the
supplied break constraints (no default Lunch insertion). -/
theorem engineBreaks_eq_of_mem {inp : EngineInput} {b : Nat × String}
    (h : b ∈ breakConstraints inp.constraints) :
    engineBreaks inp = breakConstraints inp.constraints := by
  unfold engineBreaks effectiveBreaks
  rw [if_neg ?hne]
  case hne =>
    intro hc
    rw [List.isEmpty_iff.mp hc] at h
    cases h

/-- The number of planned period rows. -/
theorem engineKinds_length (inp : EngineInput) :
    (engineKinds inp).length = inp.classesPerDay + breakIndexCount (engineBreaks inp) := by
  unfold engineKinds periodKinds
  simp

end Engine

end TimeTable

namespace TimeTable

/-- C1: every output that `generateTimetable` returns successfully has
`schedule.length = periods.length` and every row of length `days.length`;
an output violating either dimension is replaced by an error. -/
theorem generation_ok_dimensions
    (model : GenerateTimetableInput → Option GenerateTimetableOutput)
    (input : GenerateTimetableInput) (out : GenerateTimetableOutput)
    (h : generateTimetable model input = .ok out) :
    out.schedule.length = out.periods.length ∧
      ∀ row ∈ out.schedule, row.length = out.days.length := by
  have h' := ((generateTimetable_ok_iff model input out).mp h).2
  have h'' := (generateTimetableFlow_ok_iff model input out).mp h'
  exact ⟨h''.2.2.1, h''.2.2.2⟩

/-- Witness for C1 at a concrete oracle and input. -/
theorem generation_ok_dimensions_witness :
    exOutput.schedule.length = exOutput.periods.length ∧
      ∀ row ∈ exOutput.schedule, row.length = exOutput.days.length :=
  generation_ok_dimensions oracleEx exInput exOutput (by rfl)

/-- C2 counterexample: with identical structured input, two invocations of
`generateTimetable` that receive different model responses return different
results, so the output is not a function of the structured input alone. -/
theorem generation_not_input_deterministic :
    generateTimetable oracleNone exInput ≠ generateTimetable oracleEx exInput := by
  have h1 : generateTimetable oracleNone exInput =
      .error "AI failed to generate timetable data." := by rfl
  have h2 : generateTimetable oracleEx exInput = .ok exOutput := by rfl
  rw [h1, h2]
  simp

/-- C2 amended: `generateTimetable` is deterministic relative to the model
response: two invocations with identical structured input on which the
model answers identically return identical results. -/
theorem generation_deterministic_given_model
    (m1 m2 : GenerateTimetableInput → Option GenerateTimetableOutput)
    (input : GenerateTimetableInput) (h : m1 input = m2 input) :
    generateTimetable m1 input = generateTimetable m2 input := by
  unfold generateTimetable generateTimetableFlow
  rw [h]

/-- Witness for the amended C2 at a concrete input and model pair. -/
theorem generation_deterministic_given_model_witness :
    generateTimetable oracleEx exInput = generateTimetable (fun _ => some exOutput) exInput :=
  generation_deterministic_given_model oracleEx (fun _ => some exOutput) exInput (by rfl)

/-- C3: a subjects / teacher-counts length mismatch is rejected with the
fixed mismatch error, whatever the model would answer: the flow never runs. -/
theorem mismatch_rejected_before_flow
    (model : GenerateTimetableInput → Option GenerateTimetableOutput)
    (input : GenerateTimetableInput)
    (h : input.subjects.length ≠ input.teachersPerSubject.length) :
    generateTimetable model input =
      .error "Mismatch between the number of subjects and teacher counts." := by
  unfold generateTimetable
  rw [if_pos h]

/-- Witness for C3 at a concrete mismatched input. -/
theorem mismatch_rejected_before_flow_witness :
    generateTimetable oracleEx
        { exInput with teachersPerSubject := [1, 2] } =
      .error "Mismatch between the number of subjects and teacher counts." :=
  mismatch_rejected_before_flow oracleEx _ (by decide)

/-- C4 counterexample: generation can succeed with `days.length ≠ workingDays`:
the flow checks the grid against `days` and `periods` but never checks
`days.length` against the `workingDays` input. -/
theorem days_length_unchecked :
    generateTimetable oracleShortDays exInput = .ok shortDaysOutput ∧
      shortDaysOutput.days.length ≠ exInput.workingDays.toNat := by
  constructor
  · rfl
  · decide

/-- C4 amended: on success the returned `days` is exactly the model response
`days`, unchecked against `workingDays`, so its length is whatever the model
returned. -/
theorem days_come_from_model
    (model : GenerateTimetableInput → Option GenerateTimetableOutput)
    (input : GenerateTimetableInput) (out : GenerateTimetableOutput)
    (h : generateTimetable model input = .ok out) :
    ∃ m, model input = some m ∧ out.days = m.days := by
  have h' := ((generateTimetable_ok_iff model input out).mp h).2
  have h'' := (generateTimetableFlow_ok_iff model input out).mp h'
  exact ⟨out, h''.2.1, rfl⟩

/-- Witness for the amended C4 at a concrete oracle and input. -/
theorem days_come_from_model_witness :
    ∃ m, oracleShortDays exInput = some m ∧ shortDaysOutput.days = m.days :=
  days_come_from_model oracleShortDays exInput shortDaysOutput (by rfl)

/-- C5: with `workingDays < 1` (for example 0) generation fails —
either at the subjects length check or at the flow input schema, which
requires a positive `workingDays` — and no schedule is produced. -/
theorem nonpositive_workingDays_fails
    (model : GenerateTimetableInput → Option GenerateTimetableOutput)
    (input : GenerateTimetableInput) (h : input.workingDays < 1) :
    ∃ e, generateTimetable model input = .error e := by
  unfold generateTimetable generateTimetableFlow
  split
  · exact ⟨"Mismatch between the number of subjects and teacher counts.", rfl⟩
  · have hv : inputSchemaValid input = false := by
      unfold inputSchemaValid
      rw [decide_eq_false (by omega : ¬(0 < input.workingDays))]
      simp
    rw [if_pos hv]
    exact ⟨"Flow input does not match GenerateTimetableInputSchema.", rfl⟩

/-- Witness for C5 at the concrete input `workingDays = 0`. -/
theorem nonpositive_workingDays_fails_witness :
    ∃ e, generateTimetable oracleEx { exInput with workingDays := 0 } = .error e :=
  nonpositive_workingDays_fails oracleEx _ (by decide)

/-- The values submitted by the validated form (src/components/timetable-form.tsx,
`TimetableFormValues`): numbers already coerced by zod, subject names and
teacher counts still raw comma-separated text. -/
structure TimetableFormValues where
  workingDays : Int
  classesPerDay : Int
  subjects : String
  teachersPerSubject : String
  otherConstraints : Option String
deriving DecidableEq, Repr

/-- Characters removed by the JavaScript `String.prototype.trim`. -/
def jsWhitespace (c : Char) : Bool :=
  c = ' ' || c = '\t' || c = '\n' || c = '\r'

/-- Model of the JavaScript `trim()`: drop whitespace from both ends. -/
def jsTrim (s : String) : String :=
  ⟨(s.data.dropWhile jsWhitespace).rdropWhile jsWhitespace⟩

/-- Dropping a leading run twice after a trailing drop changes nothing:
the head of `(l.dropWhile p).rdropWhile p` cannot satisfy `p`. -/
theorem dropWhile_rdropWhile_eq_self (p : Char → Bool) (l : List Char) :
    ((l.dropWhile p).rdropWhile p).dropWhile p = (l.dropWhile p).rdropWhile p := by
  rw [List.dropWhile_eq_self_iff]
  intro hl
  have hpre := List.rdropWhile_prefix p (l.dropWhile p)
  have hlen : 0 < (l.dropWhile p).length := lt_of_lt_of_le hl hpre.length_le
  rw [hpre.get_eq hl]
  exact List.dropWhile_get_zero_not p l hlen

/-- `jsTrim` is idempotent: a trimmed string is left unchanged. -/
theorem jsTrim_idem (s : String) : jsTrim (jsTrim s) = jsTrim s := by
  unfold jsTrim
  congr 1
  rw [show ((⟨(s.data.dropWhile jsWhitespace).rdropWhile jsWhitespace⟩ : String)).data
      = (s.data.dropWhile jsWhitespace).rdropWhile jsWhitespace from rfl]
  rw [dropWhile_rdropWhile_eq_self]
  exact List.rdropWhile_idempotent jsWhitespace _

/-- Model of the JavaScript `split(",")` on a character list: cut at every
comma, keeping empty pieces (an empty string yields one empty piece). -/
def splitCommaAux : List Char → List Char → List (List Char)
  | [], acc => [acc.reverse]
  | c :: rest, acc =>
    if c = ',' then acc.reverse :: splitCommaAux rest []
    else splitCommaAux rest (c :: acc)

/-- Model of the JavaScript `split(",")` on a string. -/
def jsSplitComma (s : String) : List String :=
  (splitCommaAux s.data []).map (fun l => ⟨l⟩)

/-- Value of a longest leading digit run; `none` when there is no digit
(the NaN case of `parseInt`). -/
def takeDigitsVal (l : List Char) : Option Nat :=
  let ds := l.takeWhile Char.isDigit
  if ds.isEmpty then none
  else some (ds.foldl (fun acc c => acc * 10 + (c.toNat - 48)) 0)

/-- Model of the JavaScript `parseInt(s, 10)`: trim, optional sign, longest
digit run; `none` for NaN. -/
def jsParseInt (s : String) : Option Int :=
  match (jsTrim s).data with
  | '-' :: rest => (takeDigitsVal rest).map (fun n => -(n : Int))
  | '+' :: rest => (takeDigitsVal rest).map (fun n => (n : Int))
  | l => (takeDigitsVal l).map (fun n => (n : Int))

/-- The input construction and client-side consistency check of
`handleGenerateTimetable` (src/page.tsx, lines 25-45): split the raw
subject string on commas, trim, drop empties; split the raw teacher-count
string, parse each as a base-10 integer, keep the non-NaN non-negative
ones; stop (return `none` — the action is not called) when the two lists
have different lengths. -/
def handleGenerateTimetable (values : TimetableFormValues) :
    Option GenerateTimetableInput :=
  let subjects := ((jsSplitComma values.subjects).map jsTrim).filter (fun s => s ≠ "")
  let teachers := ((jsSplitComma values.teachersPerSubject).map (fun t => jsParseInt (jsTrim t))).filterMap
      (fun o => match o with
        | some n => if 0 ≤ n then some n else none
        | none => none)
  if subjects.length ≠ teachers.length then none
  else
    some { workingDays := values.workingDays
           classesPerDay := values.classesPerDay
           subjects := subjects
           teachersPerSubject := teachers
           otherConstraints := some (values.otherConstraints.getD "") }

/-- C8: whenever the page hands an input to the generation action, every
subject entry is a non-empty trimmed string, every teacher count is
non-negative, and the two lists have equal length (a length mismatch stops
the submission client-side: `handleGenerateTimetable` returns `none`). -/
theorem page_input_invariants (values : TimetableFormValues)
    (input : GenerateTimetableInput)
    (h : handleGenerateTimetable values = some input) :
    (∀ s ∈ input.subjects, s ≠ "" ∧ jsTrim s = s) ∧
      (∀ n ∈ input.teachersPerSubject, 0 ≤ n) ∧
      input.subjects.length = input.teachersPerSubject.length := by
  unfold handleGenerateTimetable at h
  by_cases hlen : (((jsSplitComma values.subjects).map jsTrim).filter (fun s => s ≠ "")).length ≠
      (((jsSplitComma values.teachersPerSubject).map (fun t => jsParseInt (jsTrim t))).filterMap
        (fun o => match o with
          | some n => if 0 ≤ n then some n else none
          | none => none)).length
  · rw [if_pos hlen] at h
    exact absurd h (by simp)
  · rw [if_neg hlen] at h
    have hinp := Option.some.inj h
    subst hinp
    refine ⟨?_, ?_, by simpa using hlen⟩
    · intro s hs
      rcases List.mem_filter.mp hs with ⟨hmem, hne⟩
      rcases List.mem_map.mp hmem with ⟨raw, _, hraw⟩
      refine ⟨by simpa using hne, ?_⟩
      rw [← hraw]
      exact jsTrim_idem raw
    · intro n hn
      rcases List.mem_filterMap.mp hn with ⟨o, _, ho⟩
      cases o with
      | none => simp at ho
      | some k =>
        by_cases hk : 0 ≤ k
        · simp only [if_pos hk] at ho
          cases ho
          exact hk
        · simp [if_neg hk] at ho

/-- A concrete form submission used in the C8 witness. -/
def exFormValues : TimetableFormValues :=
  { workingDays := 5
    classesPerDay := 6
    subjects := "Math, Science"
    teachersPerSubject := "2,3"
    otherConstraints := none }

/-- The input the page builds from `exFormValues`. -/
def exBuiltInput : GenerateTimetableInput :=
  { workingDays := 5
    classesPerDay := 6
    subjects := ["Math", "Science"]
    teachersPerSubject := [2, 3]
    otherConstraints := some "" }

/-- Witness for C8 at a concrete form submission. -/
theorem page_input_invariants_witness :
    (∀ s ∈ exBuiltInput.subjects, s ≠ "" ∧ jsTrim s = s) ∧
      (∀ n ∈ exBuiltInput.teachersPerSubject, 0 ≤ n) ∧
      exBuiltInput.subjects.length = exBuiltInput.teachersPerSubject.length :=
  page_input_invariants exFormValues exBuiltInput (by decide)

/-- Model of the JavaScript `padEnd(n, c)`: pad on the right with `c` up to
length `n`. -/
def padEndWith (s : String) (n : Nat) (c : Char) : String :=
  s ++ String.mk (List.replicate (n - s.length) c)

/-- Model of the JavaScript `padEnd(n)` (space padding). -/
def padEnd (s : String) (n : Nat) : String :=
  padEndWith s n ' '

/-- Model of the JavaScript `join("")` on an array of strings. -/
def concatAll : List String → String
  | [] => ""
  | s :: rest => s ++ concatAll rest

/-- The raw value of `data.schedule[p]?.[day]`: outer `none` is the
JavaScript `undefined` (missing row or column), `some none` a null cell,
`some (some s)` a string cell. -/
def rawCell (d : GenerateTimetableOutput) (p day : Nat) : Option (Option String) :=
  (d.schedule.get? p).bind (fun row => row.get? day)

/-- The cell text of `convertToPlainText`
(src/components/timetable-display.tsx, line 27):
`data.schedule[periodIndex]?.[dayIndex] || "Free"` — every falsy value
(undefined, null, empty string) renders as "Free". -/
def cellEntry (d : GenerateTimetableOutput) (p day : Nat) : String :=
  match rawCell d p day with
  | some (some s) => if s = "" then "Free" else s
  | _ => "Free"

/-- The `data.periods.forEach` loop of `convertToPlainText` (lines 24-31):
one text line per period, each line visiting every day index. -/
def scheduleRowsText (d : GenerateTimetableOutput) : List String → Nat → String
  | [], _ => ""
  | period :: rest, periodIndex =>
    padEnd period 15
        ++ concatAll ((List.range d.days.length).map fun dayIndex =>
          padEnd (cellEntry d periodIndex dayIndex) 20)
        ++ "\n"
      ++ scheduleRowsText d rest (periodIndex + 1)

/-- `convertToPlainText` (src/components/timetable-display.tsx, lines 17-34):
title, header row, separator row, then one line per period. -/
def convertToPlainText (d : GenerateTimetableOutput) : String :=
  "Timetable\n\n"
    ++ padEnd "Period" 15 ++ concatAll (d.days.map fun day => padEnd day 20) ++ "\n"
    ++ padEndWith "" 15 '-' ++ concatAll (d.days.map fun _ => padEndWith "" 20 '-') ++ "\n"
    ++ scheduleRowsText d d.periods 0

/-- The padded cells of schedule line `p`: one cell per day. -/
def lineCells (d : GenerateTimetableOutput) (p : Nat) : List String :=
  (List.range d.days.length).map fun di => padEnd (cellEntry d p di) 20

/-- Schedule line `p`: the period label padded to 15, the day cells, a
newline. -/
def scheduleLine (d : GenerateTimetableOutput) (p : Nat) : String :=
  padEnd (d.periods.getD p "") 15 ++ concatAll (lineCells d p) ++ "\n"

/-- The list of schedule lines, one per period index. -/
def scheduleLines (d : GenerateTimetableOutput) : List String :=
  (List.range d.periods.length).map (scheduleLine d)

/-- The forEach accumulation equals the concatenation of the indexed lines. -/
theorem scheduleRowsText_eq (d : GenerateTimetableOutput) :
    ∀ (l : List String) (k : Nat),
    scheduleRowsText d l k = concatAll ((List.range l.length).map fun j =>
      padEnd (l.getD j "") 15 ++ concatAll ((List.range d.days.length).map fun di =>
        padEnd (cellEntry d (k + j) di) 20) ++ "\n") := by
  intro l
  induction l with
  | nil => intro k; rfl
  | cons period rest ih =>
    intro k
    rw [scheduleRowsText, ih (k + 1)]
    rw [List.length_cons, List.range_succ_eq_map, List.map_cons, List.map_map]
    rw [concatAll]
    congr 1
    apply congrArg
    apply List.map_congr_left
    intro j hj
    simp only [Function.comp_apply, Nat.succ_eq_add_one, List.getD_cons_succ]
    have hidx : k + 1 + j = k + (j + 1) := by omega
    rw [hidx]

/-- C9: `convertToPlainText` renders "Free" at every undefined, null or
empty schedule cell; its output is the title, header and separator
followed by exactly one schedule line per period entry, each line covering
exactly `days.length` cells. -/
theorem plaintext_renders_free_and_counts (d : GenerateTimetableOutput) :
    (∀ p day,
        rawCell d p day = none ∨ rawCell d p day = some none ∨
          rawCell d p day = some (some "") →
        cellEntry d p day = "Free") ∧
      convertToPlainText d =
        "Timetable\n\n"
          ++ padEnd "Period" 15 ++ concatAll (d.days.map fun day => padEnd day 20) ++ "\n"
          ++ padEndWith "" 15 '-' ++ concatAll (d.days.map fun _ => padEndWith "" 20 '-') ++ "\n"
          ++ concatAll (scheduleLines d) ∧
      (scheduleLines d).length = d.periods.length ∧
      ∀ p, (lineCells d p).length = d.days.length := by
  refine ⟨?_, ?_, by simp [scheduleLines], fun p => by simp [lineCells]⟩
  · intro p day h
    unfold cellEntry
    rcases h with h | h | h <;> rw [h] <;> simp
  · unfold convertToPlainText
    rw [scheduleRowsText_eq]
    unfold scheduleLines scheduleLine lineCells
    congr 2
    apply List.map_congr_left
    intro j hj
    simp

/-- A concrete output with a null cell and an empty-string cell, used in
the C9 witness. -/
def exRenderOutput : GenerateTimetableOutput :=
  { days := ["Monday"]
    periods := ["Period 1", "Lunch"]
    schedule := [[none], [some ""]] }

/-- Witness for C9 at a concrete output: null and empty cells render
"Free", and there is one schedule line per period. -/
theorem plaintext_renders_free_and_counts_witness :
    cellEntry exRenderOutput 0 0 = "Free" ∧ cellEntry exRenderOutput 1 0 = "Free" ∧
      (scheduleLines exRenderOutput).length = exRenderOutput.periods.length :=
  ⟨(plaintext_renders_free_and_counts exRenderOutput).1 0 0 (Or.inr (Or.inl (by decide))),
   (plaintext_renders_free_and_counts exRenderOutput).1 1 0 (Or.inr (Or.inr (by decide))),
   (plaintext_renders_free_and_counts exRenderOutput).2.2.1⟩

/-- C10: when the model answers `some m` and `m` passes every dimension
check (and the input passes the schema), the flow returns exactly `m`:
no field is changed between validation and return. -/
theorem flow_returns_model_output_unchanged
    (model : GenerateTimetableInput → Option GenerateTimetableOutput)
    (input : GenerateTimetableInput) (m : GenerateTimetableOutput)
    (hs : inputSchemaValid input = true)
    (hm : model input = some m)
    (h1 : m.schedule.length = m.periods.length)
    (h2 : ∀ row ∈ m.schedule, row.length = m.days.length) :
    generateTimetableFlow model input = .ok m :=
  (generateTimetableFlow_ok_iff model input m).mpr ⟨hs, hm, h1, h2⟩

/-- Witness for C10 at a concrete oracle, input and model output. -/
theorem flow_returns_model_output_unchanged_witness :
    generateTimetableFlow oracleEx exInput = .ok exOutput :=
  flow_returns_model_output_unchanged oracleEx exInput exOutput (by rfl) (by rfl)
    (by rfl) (by decide)

/-- C6 (spec-modelled engine): a `FixedBreak` constraint at period index 3
labelled "Lunch" makes "Lunch" the label of period row 3 and fills the
whole schedule row 3 with "Lunch" in every day column. -/
theorem engine_fixed_break_lunch (inp : Engine.EngineInput) (sched : Engine.Schedule)
    (hok : Engine.runEngine inp = .ok sched)
    (hc : Engine.Constraint.fixedBreak 3 "Lunch" ∈ inp.constraints)
    (h3 : 3 < sched.periods.length) :
    sched.periods.getD 3 "" = "Lunch" ∧
      ∀ day < inp.workingDays,
        Engine.renderAssignment inp.subjects
          ((sched.grid.getD 3 []).getD day Engine.Assignment.empty) = some "Lunch" := by
  obtain ⟨hcfg, hnc, hsched⟩ := (Engine.runEngine_ok_iff inp sched).mp hok
  subst hsched
  have hmem : ((3 : Nat), "Lunch") ∈ Engine.breakConstraints inp.constraints := by
    unfold Engine.breakConstraints
    rw [List.mem_filterMap]
    exact ⟨Engine.Constraint.fixedBreak 3 "Lunch", hc, rfl⟩
  have hbs : Engine.engineBreaks inp = Engine.breakConstraints inp.constraints :=
    Engine.engineBreaks_eq_of_mem hmem
  have hnc' : Engine.conflictingBreaks (Engine.engineBreaks inp) = false := by
    rw [hbs]; exact hnc
  have hmem' : ((3 : Nat), "Lunch") ∈ Engine.engineBreaks inp := by
    rw [hbs]; exact hmem
  have hba : Engine.breakAt (Engine.engineBreaks inp) 3 = some "Lunch" :=
    Engine.breakAt_of_mem _ 3 "Lunch" hmem' hnc'
  have h3k : 3 < (Engine.engineKinds inp).length := by
    dsimp only at h3
    unfold Engine.periodLabels at h3
    rwa [Engine.periodLabelsAux_length] at h3
  have hkd : (Engine.engineKinds inp).getD 3 Engine.PeriodKind.teaching =
      Engine.PeriodKind.brk "Lunch" := by
    have hlen := Engine.engineKinds_length inp
    unfold Engine.engineKinds Engine.periodKinds
    rw [Engine.map_range_getD _ _ 3 _ (by omega)]
    rw [hba]
  constructor
  · dsimp only
    unfold Engine.periodLabels
    exact Engine.periodLabelsAux_brk _ 1 3 "Lunch" hkd
  · intro day hday
    dsimp only
    have hrow : (Engine.engineGrid inp).getD 3 [] =
        List.replicate inp.workingDays (Engine.Assignment.breakEvent "Lunch") := by
      unfold Engine.engineGrid
      exact Engine.fillGrid_brk_getD inp _ (Engine.engineKinds inp) 0 _ _ 3 "Lunch" hkd
    rw [hrow, Engine.replicate_getD _ _ _ day hday]
    rfl

/-- A concrete engine input with a fixed Lunch break at period index 3. -/
def c6Input : Engine.EngineInput :=
  { workingDays := 1
    classesPerDay := 4
    subjects := ["Math"]
    teachersPerSubject := [1]
    constraints := [Engine.Constraint.fixedBreak 3 "Lunch"] }

/-- The schedule the spec-modelled engine produces for `c6Input`. -/
def c6Schedule : Engine.Schedule :=
  { days := ["Monday"]
    periods := ["Period 1", "Period 2", "Period 3", "Lunch", "Period 4"]
    grid := [[Engine.Assignment.classAssignment 0 0],
             [Engine.Assignment.empty],
             [Engine.Assignment.empty],
             [Engine.Assignment.breakEvent "Lunch"],
             [Engine.Assignment.empty]]
    warnings := [] }

/-- Witness for C6 at a concrete engine input and its computed schedule. -/
theorem engine_fixed_break_lunch_witness :
    c6Schedule.periods.getD 3 "" = "Lunch" ∧
      ∀ day < c6Input.workingDays,
        Engine.renderAssignment c6Input.subjects
          ((c6Schedule.grid.getD 3 []).getD day Engine.Assignment.empty) = some "Lunch" :=
  engine_fixed_break_lunch c6Input c6Schedule (by rfl) (by decide) (by decide)

/-- C7 (spec-modelled engine): a subject with zero teachers does not make
the engine fail — a schedule is still returned (with a warning attached by
construction) — and that subject appears in no cell of the grid. -/
theorem engine_zero_teacher_subject_unscheduled (inp : Engine.EngineInput) (i : Nat)
    (hcfg : Engine.configValid inp = true)
    (hnc : Engine.conflictingBreaks (Engine.breakConstraints inp.constraints) = false)
    (hz : inp.teachersPerSubject.getD i 0 = 0) :
    ∃ sched, Engine.runEngine inp = .ok sched ∧
      ∀ row ∈ sched.grid, ∀ cell ∈ row, ∀ t,
        cell ≠ Engine.Assignment.classAssignment i t := by
  refine ⟨_, (Engine.runEngine_ok_iff inp _).mpr ⟨hcfg, hnc, rfl⟩, ?_⟩
  intro row hrow cell hcell t heq
  dsimp only at hrow
  unfold Engine.engineGrid at hrow
  have hpos := Engine.fillGrid_cells inp
    (Engine.targets inp.workingDays inp.classesPerDay inp.subjects.length)
    (Engine.engineKinds inp) 0
    (List.replicate inp.subjects.length 0)
    (List.replicate inp.workingDays (List.replicate inp.subjects.length 0))
    row hrow cell hcell i t heq
  rw [hz] at hpos
  exact absurd hpos (by simp)

/-- A concrete engine input whose only subject has zero teachers. -/
def c7Input : Engine.EngineInput :=
  { workingDays := 1
    classesPerDay := 1
    subjects := ["X"]
    teachersPerSubject := [0]
    constraints := [] }

/-- Witness for C7 at a concrete engine input. -/
theorem engine_zero_teacher_subject_unscheduled_witness :
    ∃ sched, Engine.runEngine c7Input = .ok sched ∧
      ∀ row ∈ sched.grid, ∀ cell ∈ row, ∀ t,
        cell ≠ Engine.Assignment.classAssignment 0 t :=
  engine_zero_teacher_subject_unscheduled c7Input 0 (by decide) (by decide) (by decide)

end TimeTable
